import Mathlib

/-!
Verification of the FirepowerApp backend game-tracking core.

This file gives a shallow embedding, in Lean, of the decision logic of the
game-tracking control loop: the rescheduling predicate, the execution-window
check, the play-by-play client, the game processor with its recompute gate and
shootout adjustment, the notification dispatch, the per-game worker, the daily
scheduler, and the task payload codec.  External effects (HTTP responses, the
wall clock, broker enqueue outcomes) are passed in as explicit inputs; machine
time is modelled at second granularity.
-/

namespace Backend

/-- Go time instants at second granularity: seconds since the Unix epoch. -/
abbrev Instant := Int

/-- A Go time value: the instant it denotes plus the UTC offset of its
location, which Go keeps alongside the instant and uses when formatting. -/
structure GoTime where
  epochSec : Int
  offsetSec : Int
deriving DecidableEq, Repr

/-- Addition of a duration (in seconds) to a Go time, as in time.Add: the
instant moves, the location is kept. -/
def goTimeAdd (t : GoTime) (secs : Int) : GoTime :=
  ⟨t.epochSec + secs, t.offsetSec⟩

/-- Civil date to day count since 1970-01-01 in the proleptic Gregorian
calendar (the standard era-based algorithm used by time libraries). -/
def daysFromCivil (y m d : Int) : Int :=
  let yAdj := if m ≤ 2 then y - 1 else y
  let era := yAdj / 400
  let yoe := yAdj - era * 400
  let mp := (m + 9) % 12
  let doy := (153 * mp + 2) / 5 + d - 1
  let doe := yoe * 365 + yoe / 4 - yoe / 100 + doy
  era * 146097 + doe - 719468

/-- Day count since 1970-01-01 back to a civil date (year, month, day). -/
def civilFromDays (z0 : Int) : Int × Int × Int :=
  let z := z0 + 719468
  let era := z / 146097
  let doe := z - era * 146097
  let yoe := (doe - doe / 1460 + doe / 36524 - doe / 146096) / 365
  let y := yoe + era * 400
  let doy := doe - (365 * yoe + yoe / 4 - yoe / 100)
  let mp := (5 * doy + 2) / 153
  let d := doy - (153 * mp + 2) / 5 + 1
  let m := if mp < 10 then mp + 3 else mp - 9
  (if m ≤ 2 then y + 1 else y, m, d)

/-- Gregorian leap-year rule. -/
def isLeapYear (y : Nat) : Bool := y % 4 == 0 && (y % 100 != 0 || y % 400 == 0)

/-- Number of days in a month of a given year. -/
def daysInMonth (y m : Nat) : Nat :=
  if m = 2 then (if isLeapYear y then 29 else 28)
  else if m = 4 ∨ m = 6 ∨ m = 9 ∨ m = 11 then 30
  else 31

/-- Value of a decimal digit character, if it is one. -/
def digitVal (c : Char) : Option Nat :=
  if '0' ≤ c ∧ c ≤ '9' then some (c.toNat - '0'.toNat) else none

/-- Read exactly n decimal digits, returning their value and the rest. -/
def readDigits : Nat → Nat → List Char → Option (Nat × List Char)
  | 0, acc, cs => some (acc, cs)
  | n + 1, acc, c :: cs =>
    match digitVal c with
    | some d => readDigits n (acc * 10 + d) cs
    | none => none
  | _ + 1, _, [] => none

/-- Consume one expected character. -/
def expectChar (c : Char) : List Char → Option (List Char)
  | c2 :: cs => if c2 = c then some cs else none
  | [] => none

/-- Drop a leading run of decimal digits. -/
def dropDigits : List Char → List Char
  | c :: cs => if (digitVal c).isSome then dropDigits cs else c :: cs
  | [] => []

/-- Consume an optional fractional-seconds part: a dot followed by at least
one digit, or nothing. -/
def parseFraction : List Char → Option (List Char)
  | '.' :: cs =>
    match cs with
    | c :: _ => if (digitVal c).isSome then some (dropDigits cs) else none
    | [] => none
  | cs => some cs

/-- Consume the numeric timezone offset body hh:mm, requiring end of input,
and return the offset in seconds. -/
def parseNumOffset (cs : List Char) : Option Int :=
  match readDigits 2 0 cs with
  | some (hh, cs2) =>
    match expectChar ':' cs2 with
    | some cs3 =>
      match readDigits 2 0 cs3 with
      | some (mm, []) =>
        if hh ≤ 23 ∧ mm ≤ 59 then some ((hh : Int) * 3600 + (mm : Int) * 60) else none
      | _ => none
    | none => none
  | none => none

/-- Consume the timezone suffix of an RFC3339 timestamp: Z for UTC or a
signed hh:mm offset; return the offset in seconds. -/
def parseOffset : List Char → Option Int
  | ['Z'] => some 0
  | '+' :: cs => parseNumOffset cs
  | '-' :: cs => (parseNumOffset cs).map (fun o => -o)
  | _ => none

/-- Embedding of Go time.Parse with the RFC3339 layout, at second
granularity: accepts yyyy-mm-ddThh:mm:ss with optional fractional seconds
and a Z or signed hh:mm offset, validating calendar ranges. -/
def parseRFC3339 (s : String) : Option GoTime := do
  let (y, cs) ← readDigits 4 0 s.data
  let cs ← expectChar '-' cs
  let (mo, cs) ← readDigits 2 0 cs
  let cs ← expectChar '-' cs
  let (d, cs) ← readDigits 2 0 cs
  let cs ← expectChar 'T' cs
  let (h, cs) ← readDigits 2 0 cs
  let cs ← expectChar ':' cs
  let (mi, cs) ← readDigits 2 0 cs
  let cs ← expectChar ':' cs
  let (sec, cs) ← readDigits 2 0 cs
  let cs ← parseFraction cs
  let off ← parseOffset cs
  if 1 ≤ mo ∧ mo ≤ 12 ∧ 1 ≤ d ∧ d ≤ daysInMonth y mo ∧ h ≤ 23 ∧ mi ≤ 59 ∧ sec ≤ 59 then
    some ⟨daysFromCivil (y : Int) (mo : Int) (d : Int) * 86400
            + ((h : Int) * 3600 + (mi : Int) * 60 + (sec : Int)) - off, off⟩
  else none

/-- Zero-pad a number (expected in 0..99) to two digits. -/
def pad2 (n : Int) : String :=
  if n < 10 then "0" ++ toString n else toString n

/-- Zero-pad a year (expected in 0..9999) to four digits. -/
def pad4 (n : Int) : String :=
  if n < 10 then "000" ++ toString n
  else if n < 100 then "00" ++ toString n
  else if n < 1000 then "0" ++ toString n
  else toString n

/-- Embedding of Go time.Format with the RFC3339 layout: the civil time in
the value's location, followed by Z or the signed hh:mm offset. -/
def formatRFC3339 (t : GoTime) : String :=
  let wall := t.epochSec + t.offsetSec
  let days := wall / 86400
  let sod := wall % 86400
  let ymd := civilFromDays days
  pad4 ymd.1 ++ "-" ++ pad2 ymd.2.1 ++ "-" ++ pad2 ymd.2.2 ++ "T"
    ++ pad2 (sod / 3600) ++ ":" ++ pad2 ((sod % 3600) / 60) ++ ":" ++ pad2 (sod % 60)
    ++ (if t.offsetSec = 0 then "Z"
        else (if t.offsetSec < 0 then "-" else "+")
          ++ pad2 ((t.offsetSec.natAbs : Int) / 3600) ++ ":"
          ++ pad2 (((t.offsetSec.natAbs : Int) % 3600) / 60))

/-- Embedding of models.Team (internal/models): a Go map field may be nil,
so each multilingual name map is an optional association list. -/
structure Team where
  id : Int
  commonName : Option (List (String × String))
  placeName : Option (List (String × String))
  placeNameWithPreposition : Option (List (String × String))
  «abbrev» : String
deriving DecidableEq, Repr

/-- Embedding of models.Game (internal/models). -/
structure Game where
  id : String
  gameDate : String
  startTime : String
  homeTeam : Team
  awayTeam : Team
deriving DecidableEq, Repr

/-- Embedding of models.Payload (internal/models): the task payload with the
embedded game and the optional execution_end and should_notify fields. -/
structure Payload where
  game : Game
  executionEnd : Option String
  shouldNotify : Option Bool
deriving DecidableEq, Repr

/-- Embedding of models.Play: only typeDescKey is behaviourally relevant. -/
structure Play where
  typeDescKey : String
deriving DecidableEq, Repr

/-- The zero value of models.Play, returned by the play-by-play client when
there is no actionable signal. -/
def zeroPlay : Play := ⟨""⟩

/-- The zero value of models.Team. -/
def zeroTeam : Team := ⟨0, none, none, none, ""⟩

/-- Embedding of ShouldReschedule from
watchgameupdates/internal/services/rescheduler.go.  The wall clock is an
explicit input.  Note the source returns true as soon as a present
executionEnd parses and has not been reached, without consulting the last
play; an unparseable executionEnd is only logged and falls through to the
game-end check. -/
def ShouldReschedule (now : Instant) (payload : Payload) (lastPlay : Play) : Bool :=
  match payload.executionEnd with
  | some s =>
    match parseRFC3339 s with
    | none =>
      if lastPlay.typeDescKey ≠ "game-end" then true else false
    | some executionEnd =>
      if now > executionEnd.epochSec then false
      else true
  | none =>
    if lastPlay.typeDescKey ≠ "game-end" then true else false

/-- Embedding of the older duplicate of ShouldReschedule kept in the
repository (the push-mode copy): when a present executionEnd parses and has
not been reached it falls through to the game-end check instead of
returning true. -/
def ShouldRescheduleLegacy (now : Instant) (payload : Payload) (lastPlay : Play) : Bool :=
  match payload.executionEnd with
  | some s =>
    match parseRFC3339 s with
    | none =>
      if lastPlay.typeDescKey ≠ "game-end" then true else false
    | some executionEnd =>
      if now > executionEnd.epochSec then false
      else if lastPlay.typeDescKey ≠ "game-end" then true else false
  | none =>
    if lastPlay.typeDescKey ≠ "game-end" then true else false

/-- Embedding of ShouldSkipExecution from
watchgameupdates/internal/services/gameprocessor.go: returns the skip
decision and whether an error was reported (unparseable execution_end). -/
def ShouldSkipExecution (now : Instant) (payload : Payload) : Bool × Bool :=
  match payload.executionEnd with
  | some s =>
    match parseRFC3339 s with
    | none => (true, true)
    | some executionEnd =>
      if now > executionEnd.epochSec then (true, false) else (false, false)
  | none => (false, false)

/-- A stats data map, as Go map of string to string: lookup may be absent. -/
def GameData := String → Option String

/-- Go map indexing: a missing key yields the zero value, the empty string. -/
def mapGet (m : GameData) (k : String) : String := (m k).getD ""

/-- Go map assignment. -/
def mapSet (m : GameData) (k v : String) : GameData :=
  fun k2 => if k2 = k then some v else m k2

/-- The data map with no entries (also models a nil Go map being read). -/
def emptyData : GameData := fun _ => none

/-- Read the digits of a nonempty all-digit string as a natural number. -/
def digitsToNatAux : List Char → Nat → Option Nat
  | [], acc => some acc
  | c :: cs, acc =>
    match digitVal c with
    | some d => digitsToNatAux cs (acc * 10 + d)
    | none => none

/-- All-digit nonempty character list to a natural number. -/
def digitsToNat : List Char → Option Nat
  | [] => none
  | cs => digitsToNatAux cs 0

/-- Embedding of Go strconv.Atoi: an optional sign followed by at least one
digit; anything else is an error. -/
def atoi (s : String) : Option Int :=
  match s.data with
  | '+' :: cs => (digitsToNat cs).map (fun n => (n : Int))
  | '-' :: cs => (digitsToNat cs).map (fun n => -(n : Int))
  | cs => (digitsToNat cs).map (fun n => (n : Int))

/-- Embedding of Go strconv.Itoa. -/
def itoa (n : Int) : String := toString n

/-- Embedding of AdjustScoreForShootout from
watchgameupdates/internal/services/gameprocessor.go.  The Go function
mutates the map in place and returns an error; here it returns the map as
left by the call together with the optional error message.  All four parses
happen before any write, so every error exit leaves the map untouched. -/
def AdjustScoreForShootout (gameData : GameData) : GameData × Option String :=
  match atoi (mapGet gameData "homeTeamGoals") with
  | none => (gameData, some "invalid home goals")
  | some homeScore =>
    match atoi (mapGet gameData "awayTeamGoals") with
    | none => (gameData, some "invalid away goals")
    | some awayScore =>
      match atoi (mapGet gameData "homeTeamShootOutGoals") with
      | none => (gameData, some "invalid home shootout goals")
      | some homeSOGoals =>
        match atoi (mapGet gameData "awayTeamShootOutGoals") with
        | none => (gameData, some "invalid away shootout goals")
        | some awaySOGoals =>
          let scores :=
            if homeSOGoals > awaySOGoals then (homeScore + 1, awayScore)
            else if awaySOGoals > homeSOGoals then (homeScore, awayScore + 1)
            else (homeScore, awayScore)
          let gd := mapSet gameData "homeTeamGoals" (itoa scores.1)
          let gd := mapSet gd "awayTeamGoals" (itoa scores.2)
          (gd, none)

/-- Outcome of reading the body of a 200 play-by-play response: the read may
fail, the JSON may be malformed, or a play list is decoded. -/
inductive BodyResult where
  | readError
  | malformed
  | parsed (plays : List Play)
deriving DecidableEq, Repr

/-- The upstream side of one play-by-play HTTP request: either the request
itself errors, or a response arrives with a status code and a body. -/
inductive PlayByPlayUpstream where
  | httpError
  | response (statusCode : Nat) (body : BodyResult)
deriving DecidableEq, Repr

/-- Result of FetchPlayByPlay: the returned play, or a runtime panic. -/
inductive FetchResult where
  | ok (p : Play)
  | panicked
deriving DecidableEq, Repr

/-- Embedding of FetchPlayByPlay (internal/services): HTTP errors, non-200
statuses, unreadable bodies and empty play lists all return the zero play;
a body that fails JSON unmarshalling hits a panic in the source. -/
def FetchPlayByPlay : PlayByPlayUpstream → FetchResult
  | .httpError => .ok zeroPlay
  | .response statusCode body =>
    if statusCode ≠ 200 then .ok zeroPlay
    else
      match body with
      | .readError => .ok zeroPlay
      | .malformed => .panicked
      | .parsed plays =>
        if plays.isEmpty then .ok zeroPlay
        else .ok (plays.getLastD zeroPlay)

/-- A configured notifier, abstracted to the data keys it consults (the
message format itself is the Discord one, below). -/
structure NotifierModel where
  requiredDataKeys : List String
deriving DecidableEq, Repr

/-- The required data keys of the Discord notifier
(internal/notification/discord.go). -/
def discordRequiredDataKeys : List String :=
  ["homeTeamExpectedGoals", "awayTeamExpectedGoals", "homeTeamGoals",
   "awayTeamGoals", "homeTeamShootOutGoals", "awayTeamShootOutGoals"]

/-- Embedding of notification.NotificationRequest. -/
structure NotificationRequest where
  team1ID : String
  team2ID : String
  data : GameData

/-- Embedding of DiscordNotifier.FormatMessage
(internal/notification/discord.go): score line when both goal keys are
present, expected-goals block when either expected-goals key is present, and
always the timestamp footer.  The formatted wall-clock string is an input. -/
def FormatMessage (nowStr : String) (req : NotificationRequest) : String :=
  let message := ""
  let message :=
    match req.data "homeTeamGoals", req.data "awayTeamGoals" with
    | some homeGoals, some awayGoals =>
      message ++ "🏒 Current Score: " ++ req.team1ID ++ " " ++ homeGoals
        ++ " - " ++ awayGoals ++ " " ++ req.team2ID ++ "\n\n"
    | _, _ => message
  let message :=
    match req.data "homeTeamExpectedGoals", req.data "awayTeamExpectedGoals" with
    | some homeXG, some awayXG =>
      message ++ "📊 Expected Goals:\n" ++ "• " ++ req.team1ID ++ ": " ++ homeXG ++ "\n"
        ++ "• " ++ req.team2ID ++ ": " ++ awayXG ++ "\n"
    | some homeXG, none =>
      message ++ "📊 Expected Goals:\n" ++ "• " ++ req.team1ID ++ ": " ++ homeXG ++ "\n"
    | none, some awayXG =>
      message ++ "📊 Expected Goals:\n" ++ "• " ++ req.team2ID ++ ": " ++ awayXG ++ "\n"
    | none, none => message
  message ++ "\n*Notification sent at " ++ nowStr ++ "*"

/-- Go map indexing on an optional association list (a possibly nil map):
the zero value is returned when the map is nil or the key is absent. -/
def assocGetD (m : Option (List (String × String))) (k : String) : String :=
  match m with
  | none => ""
  | some l =>
    match l.find? (fun kv => kv.1 = k) with
    | some kv => kv.2
    | none => ""

/-- The per-notifier data map built by SendGameEventNotifications: required
keys are copied from the fetched game data; missing keys stay absent. -/
def buildNotifierData (keys : List String) (gameData : GameData) : GameData :=
  fun k => if k ∈ keys then gameData k else none

/-- Embedding of Service.SendGameEventNotifications
(internal/notification/service.go): when notifications are enabled, each
configured notifier is sent one message formatted from the game and the
restriction of the data map to that notifier's required keys.  The result is
the list of dispatched message bodies. -/
def SendGameEventNotifications (shouldNotify : Bool) (notifiers : List NotifierModel)
    (nowStr : String) (game : Game) (gameData : GameData) : List String :=
  if shouldNotify = false then []
  else
    notifiers.map (fun n =>
      FormatMessage nowStr
        ⟨assocGetD game.homeTeam.commonName "default",
         assocGetD game.awayTeam.commonName "default",
         buildNotifierData n.requiredDataKeys gameData⟩)

/-- Result of FetchAndParseGameData as consumed by the processor: the data
map (none models a nil Go map) and whether an error was returned alongside
it.  The stats client is an HTTP collaborator, so its outcome is an input. -/
structure StatsOutcome where
  gameData : Option GameData
  fetchErr : Bool

/-- A possibly nil Go data map, read as a total lookup. -/
def derefData : Option GameData → GameData
  | some gd => gd
  | none => emptyData

/-- Embedding of services.ProcessResult. -/
structure ProcessResult where
  shouldReschedule : Bool
  lastPlayType : String
deriving DecidableEq, Repr

/-- The recompute gate of GameProcessor.ProcessGameUpdate: the closed set of
interesting play types (internal/services/gameprocessor.go). -/
def recomputeTypes : List String :=
  ["blocked-shot", "missed-shot", "shot-on-goal", "goal", "game-end"]

/-- The recompute gate of the push-HTTP handler variant
(internal/handlers/watchgameupdates_handler.go), which additionally contains
period-end. -/
def handlerRecomputeTypes : List String :=
  ["blocked-shot", "missed-shot", "shot-on-goal", "goal", "period-end", "game-end"]

/-- Observable outcome of one ProcessGameUpdate iteration: a panic escaping
from the play fetch, or the process result together with whether the stats
fetch ran and which notification bodies were dispatched. -/
inductive IterOutcome where
  | panicked
  | done (result : ProcessResult) (statsFetched : Bool) (sent : List String)
deriving DecidableEq

/-- The shootout patch applied by ProcessGameUpdate on a game-end play: when
the data map is non-nil and both goal counts are present and equal, the map
as left by AdjustScoreForShootout replaces it (errors are only logged). -/
def shootoutPatch (lastPlayType : String) (gameData : Option GameData) : Option GameData :=
  if lastPlayType = "game-end" then
    match gameData with
    | some gd =>
      match gd "homeTeamGoals", gd "awayTeamGoals" with
      | some homeGoals, some awayGoals =>
        if homeGoals = awayGoals then some (AdjustScoreForShootout gd).1 else some gd
      | _, _ => some gd
    | none => none
  else gameData

/-- Embedding of GameProcessor.ProcessGameUpdate
(internal/services/gameprocessor.go): fetch the last play; if its type is in
the recompute gate, fetch stats, apply the shootout patch on game-end, and
dispatch notifications; finally decide rescheduling.  The wall clock, the
notifier configuration and both upstream outcomes are inputs. -/
def ProcessGameUpdate (now : Instant) (nowStr : String) (shouldNotify : Bool)
    (notifiers : List NotifierModel) (pbp : PlayByPlayUpstream) (stats : StatsOutcome)
    (payload : Payload) : IterOutcome :=
  match FetchPlayByPlay pbp with
  | .panicked => .panicked
  | .ok lastPlay =>
    if lastPlay.typeDescKey ∈ recomputeTypes then
      let gameData := shootoutPatch lastPlay.typeDescKey stats.gameData
      let sent := SendGameEventNotifications shouldNotify notifiers nowStr payload.game
        (derefData gameData)
      .done ⟨ShouldReschedule now payload lastPlay, lastPlay.typeDescKey⟩ true sent
    else
      .done ⟨ShouldReschedule now payload lastPlay, lastPlay.typeDescKey⟩ false []

/-- Observable outcome of the push-HTTP WatchGameUpdatesHandler
(internal/handlers/watchgameupdates_handler.go): a 400 on an unparseable
execution_end, a silent return on a closed window, a panic (nil
execution_end dereference or play-fetch panic), or completion with the
stats-fetch flag, the dispatched bodies and the reschedule decision. -/
inductive HandlerOutcome where
  | badRequest
  | windowClosed
  | panicked
  | done (statsFetched : Bool) (sent : List String) (rescheduled : Bool)
deriving DecidableEq

/-- Embedding of the push-HTTP WatchGameUpdatesHandler
(internal/handlers/watchgameupdates_handler.go, second variant): window
check first, then the six-element recompute gate including period-end, the
shootout patch, notification dispatch, and the reschedule decision. -/
def HandlerWatchGameUpdates (now : Instant) (nowStr : String) (shouldNotify : Bool)
    (notifiers : List NotifierModel) (pbp : PlayByPlayUpstream) (stats : StatsOutcome)
    (payload : Payload) : HandlerOutcome :=
  match payload.executionEnd with
  | none => .panicked
  | some s =>
    match parseRFC3339 s with
    | none => .badRequest
    | some executionEnd =>
      if now > executionEnd.epochSec then .windowClosed
      else
        match FetchPlayByPlay pbp with
        | .panicked => .panicked
        | .ok lastPlay =>
          if lastPlay.typeDescKey ∈ handlerRecomputeTypes then
            let gameData := shootoutPatch lastPlay.typeDescKey stats.gameData
            let sent := SendGameEventNotifications shouldNotify notifiers nowStr
              payload.game (derefData gameData)
            .done true sent (ShouldReschedule now payload lastPlay)
          else
            .done false [] (ShouldReschedule now payload lastPlay)

/-- An error returned by an asynq task handler: its message and whether it
is wrapped in asynq.SkipRetry, the marker that makes a failure terminal. -/
structure TaskError where
  msg : String
  skipRetry : Bool
deriving DecidableEq, Repr

/-- Modelled from the spec: the broker consumer contract of the external
asynq broker — a handler failure is nacked and rescheduled per the retry
policy, unless the error is marked terminal with SkipRetry, in which case
the task is removed without retry. -/
def brokerRetries (e : TaskError) : Bool := !e.skipRetry

/-- Return value of a task handler: success, a returned error, or a panic. -/
inductive TaskResult where
  | ok
  | fail (e : TaskError)
  | panicked
deriving DecidableEq

/-- Observable outcome of one ProcessTask invocation: the value returned to
the broker and whether a successor task was enqueued. -/
structure TaskEffects where
  result : TaskResult
  successorEnqueued : Bool
deriving DecidableEq

/-- Embedding of WatchGameUpdatesHandler.ProcessTask (the pull-worker
consumer, internal/tasks): decode the payload, check the execution window,
run the game processor, and enqueue a successor when rescheduling is
required.  The decode outcome, upstream outcomes and the enqueue outcome are
inputs; every error the source returns is a plain wrapped error, never
marked with asynq.SkipRetry. -/
def ProcessTask (now : Instant) (nowStr : String) (notifiers : List NotifierModel)
    (decoded : Option Payload) (pbp : PlayByPlayUpstream) (stats : StatsOutcome)
    (enqueueOk : Bool) : TaskEffects :=
  match decoded with
  | none => ⟨.fail ⟨"failed to parse task payload", false⟩, false⟩
  | some payload =>
    let skipResult := ShouldSkipExecution now payload
    if skipResult.2 then ⟨.fail ⟨"error checking execution window", false⟩, false⟩
    else if skipResult.1 then ⟨.ok, false⟩
    else
      let shouldNotify := payload.shouldNotify.getD true
      match ProcessGameUpdate now nowStr shouldNotify notifiers pbp stats payload with
      | .panicked => ⟨.panicked, false⟩
      | .done result _ _ =>
        if result.shouldReschedule then
          if enqueueOk then ⟨.ok, true⟩
          else ⟨.fail ⟨"failed to schedule next check", false⟩, false⟩
        else ⟨.ok, false⟩

/-- Embedding of schedule.ScheduleGame (internal/schedule/types.go). -/
structure ScheduleGame where
  id : Int
  gameDate : String
  startTimeUTC : String
  gameState : String
  gameType : Int
  homeTeam : Team
  awayTeam : Team
deriving DecidableEq, Repr

/-- One producer-side enqueue call: the payload and its delivery time. -/
structure EnqueueCall where
  payload : Payload
  deliverAt : GoTime
deriving DecidableEq, Repr

/-- Embedding of the per-game body of Scheduler.Run (the scheduler package):
skip games not in state FUT, skip games whose start time does not parse,
otherwise enqueue a payload carrying execution_end at start plus the
configured maximum duration and the configured notify flag, delivered at the
start time.  The result is the list of enqueue calls attempted, in order. -/
def schedulerRun (gameMaxDurationHours : Int) (shouldNotify : Bool) :
    List ScheduleGame → List EnqueueCall
  | [] => []
  | game :: rest =>
    if game.gameState ≠ "FUT" then schedulerRun gameMaxDurationHours shouldNotify rest
    else
      match parseRFC3339 game.startTimeUTC with
      | none => schedulerRun gameMaxDurationHours shouldNotify rest
      | some startTime =>
        let executionEnd := formatRFC3339 (goTimeAdd startTime (gameMaxDurationHours * 3600))
        let payload : Payload :=
          ⟨⟨itoa game.id, game.gameDate, game.startTimeUTC, game.homeTeam, game.awayTeam⟩,
           some executionEnd, some shouldNotify⟩
        ⟨payload, startTime⟩ :: schedulerRun gameMaxDurationHours shouldNotify rest

/-- The claim's per-game reading of the daily scheduler, written from the
spec sentence: a task is enqueued exactly when the game's lifecycle state is
FUT and its startTimeUTC parses as RFC3339, with deliverAt the start time,
executionEnd denoting start plus the configured maximum duration, and
shouldNotify taken from configuration. -/
def scheduledTaskSpec (gameMaxDurationHours : Int) (shouldNotify : Bool)
    (game : ScheduleGame) : Option EnqueueCall :=
  if game.gameState = "FUT" then
    (parseRFC3339 game.startTimeUTC).map (fun startTime =>
      ⟨⟨⟨itoa game.id, game.gameDate, game.startTimeUTC, game.homeTeam, game.awayTeam⟩,
        some (formatRFC3339 (goTimeAdd startTime (gameMaxDurationHours * 3600))),
        some shouldNotify⟩, startTime⟩)
  else none

/-- JSON values, as produced and consumed by Go encoding/json for the task
payload (arrays do not occur in this payload shape). -/
inductive Json where
  | null
  | bool (b : Bool)
  | num (n : Int)
  | str (s : String)
  | obj (members : List (String × Json))

/-- Marshal of a Go map of string to string: nil maps encode as null,
non-nil maps as objects. -/
def encodeStrMap : Option (List (String × String)) → Json
  | none => .null
  | some l => .obj (l.map (fun kv => (kv.1, Json.str kv.2)))

/-- Marshal of models.Team, fields in declaration order with their tags. -/
def encodeTeam (t : Team) : Json :=
  .obj [("id", .num t.id),
        ("commonName", encodeStrMap t.commonName),
        ("placeName", encodeStrMap t.placeName),
        ("placeNameWithPreposition", encodeStrMap t.placeNameWithPreposition),
        ("abbrev", .str t.«abbrev»)]

/-- Marshal of models.Game. -/
def encodeGame (g : Game) : Json :=
  .obj [("id", .str g.id),
        ("gameDate", .str g.gameDate),
        ("startTimeUTC", .str g.startTime),
        ("homeTeam", encodeTeam g.homeTeam),
        ("awayTeam", encodeTeam g.awayTeam)]

/-- Marshal of models.Payload: the optional pointer fields carry omitempty,
so nil pointers drop their keys. -/
def encodePayload (p : Payload) : Json :=
  .obj ([("game", encodeGame p.game)]
    ++ (match p.executionEnd with
        | some s => [("execution_end", Json.str s)]
        | none => [])
    ++ (match p.shouldNotify with
        | some b => [("should_notify", Json.bool b)]
        | none => []))

/-- First-match field lookup in a JSON object body. -/
def lookupJson (ms : List (String × Json)) (k : String) : Option Json :=
  match ms.find? (fun kv => kv.1 = k) with
  | some kv => some kv.2
  | none => none

/-- Unmarshal of a string struct field: a missing key or null leaves the
zero value; a non-string value is an error. -/
def decodeStrField : Option Json → Option String
  | none => some ""
  | some .null => some ""
  | some (.str s) => some s
  | some _ => none

/-- Unmarshal of an int struct field. -/
def decodeNumField : Option Json → Option Int
  | none => some 0
  | some .null => some 0
  | some (.num n) => some n
  | some _ => none

/-- Unmarshal of one map entry: its value must be a JSON string. -/
def decodeStrEntry : String × Json → Option (String × String)
  | (k, Json.str s) => some (k, s)
  | _ => none

/-- Unmarshal of the entries of a string-map object, in order; any
non-string value fails the whole map. -/
def decodeStrEntries : List (String × Json) → Option (List (String × String))
  | [] => some []
  | kv :: rest => do
    let e ← decodeStrEntry kv
    let es ← decodeStrEntries rest
    some (e :: es)

/-- Unmarshal of a map of string to string: missing or null gives the nil
map; an object requires every value to be a string. -/
def decodeStrMapField : Option Json → Option (Option (List (String × String)))
  | none => some none
  | some .null => some none
  | some (.obj ms) => (decodeStrEntries ms).map some
  | some _ => none

/-- Unmarshal of an optional (pointer) string field. -/
def decodeOptStrField : Option Json → Option (Option String)
  | none => some none
  | some .null => some none
  | some (.str s) => some (some s)
  | some _ => none

/-- Unmarshal of an optional (pointer) bool field. -/
def decodeOptBoolField : Option Json → Option (Option Bool)
  | none => some none
  | some .null => some none
  | some (.bool b) => some (some b)
  | some _ => none

/-- Unmarshal of models.Team from a JSON value. -/
def decodeTeam : Json → Option Team
  | .null => some zeroTeam
  | .obj ms => do
    let id ← decodeNumField (lookupJson ms "id")
    let cn ← decodeStrMapField (lookupJson ms "commonName")
    let pn ← decodeStrMapField (lookupJson ms "placeName")
    let pnp ← decodeStrMapField (lookupJson ms "placeNameWithPreposition")
    let ab ← decodeStrField (lookupJson ms "abbrev")
    some ⟨id, cn, pn, pnp, ab⟩
  | _ => none

/-- The zero value of models.Game. -/
def zeroGame : Game := ⟨"", "", "", zeroTeam, zeroTeam⟩

/-- Unmarshal of an embedded Team struct field. -/
def decodeTeamField : Option Json → Option Team
  | none => some zeroTeam
  | some j => decodeTeam j

/-- Unmarshal of models.Game from a JSON value. -/
def decodeGame : Json → Option Game
  | .null => some zeroGame
  | .obj ms => do
    let id ← decodeStrField (lookupJson ms "id")
    let gd ← decodeStrField (lookupJson ms "gameDate")
    let st ← decodeStrField (lookupJson ms "startTimeUTC")
    let ht ← decodeTeamField (lookupJson ms "homeTeam")
    let at2 ← decodeTeamField (lookupJson ms "awayTeam")
    some ⟨id, gd, st, ht, at2⟩
  | _ => none

/-- Unmarshal of an embedded Game struct field. -/
def decodeGameField : Option Json → Option Game
  | none => some zeroGame
  | some j => decodeGame j

/-- Unmarshal of models.Payload from a JSON value. -/
def decodePayload : Json → Option Payload
  | .null => some ⟨zeroGame, none, none⟩
  | .obj ms => do
    let game ← decodeGameField (lookupJson ms "game")
    let ee ← decodeOptStrField (lookupJson ms "execution_end")
    let sn ← decodeOptBoolField (lookupJson ms "should_notify")
    some ⟨game, ee, sn⟩
  | _ => none

/-- Embedding of tasks.NewWatchGameUpdatesTask (internal/tasks/types.go):
an asynq task is its type name and its marshalled payload. -/
def NewWatchGameUpdatesTask (p : Payload) : String × Json :=
  ("game:watch_updates", encodePayload p)

/-- Embedding of tasks.ParseWatchGameUpdatesPayload
(internal/tasks/types.go): unmarshal the task payload. -/
def ParseWatchGameUpdatesPayload (task : String × Json) : Option Payload :=
  decodePayload task.2

/-- A minimal concrete game used by the concrete test inputs below. -/
def g0 : Game := ⟨"2024030411", "", "", zeroTeam, zeroTeam⟩

/-- A payload whose execution window is open far into the future. -/
def c1Payload : Payload := ⟨g0, some "2030-01-01T00:00:00Z", none⟩

/-- A payload whose execution_end does not parse as RFC3339. -/
def c2Payload : Payload := ⟨g0, some "not-a-date", none⟩

/-- The game-end play. -/
def gameEndPlay : Play := ⟨"game-end"⟩

/-- A play outside every recompute gate. -/
def hitPlay : Play := ⟨"hit"⟩

/-- A concrete data map: a 3-3 regulation tie with a 2-1 home shootout. -/
def c5Data : GameData := fun k =>
  if k = "homeTeamGoals" then some "3"
  else if k = "awayTeamGoals" then some "3"
  else if k = "homeTeamShootOutGoals" then some "2"
  else if k = "awayTeamShootOutGoals" then some "1"
  else if k = "other" then some "kept"
  else none

/-- A concrete data map whose away shootout-goal value is not an integer. -/
def c10BadData : GameData := fun k =>
  if k = "homeTeamGoals" then some "3"
  else if k = "awayTeamGoals" then some "3"
  else if k = "homeTeamShootOutGoals" then some "2"
  else if k = "awayTeamShootOutGoals" then some "x"
  else none

/-- The Discord notifier, abstracted to its required keys. -/
def discordNotifier : NotifierModel := ⟨discordRequiredDataKeys⟩

/-- The error ProcessTask returns on a payload decode failure: a plain
wrapped error, not marked with asynq.SkipRetry. -/
def c7DecodeError : TaskError := ⟨"failed to parse task payload", false⟩

/-- C1: the claim says that whenever the last play is game-end,
ShouldReschedule returns false, in particular when executionEnd is present,
parses as RFC3339 and lies in the future.  Evaluated at exactly that input
(now 2024-01-01T00:00:00Z, window ending 2030-01-01T00:00:00Z), the shipped
predicate returns true: the open-window branch returns early without
consulting the play.  The repository's duplicate copy of the predicate
returns false there, and the repository's own unit test for the shipped
predicate expects false, so the code contradicts its own test. -/
theorem c1_game_end_open_window_code_bug :
    ShouldReschedule 1704067200 c1Payload gameEndPlay = true ∧
    ShouldRescheduleLegacy 1704067200 c1Payload gameEndPlay = false := by
  constructor <;> decide

/-- C2 counterexample: a payload whose executionEnd is present but
unparseable, with a last play that is not game-end; the claim says
shouldReschedule returns false regardless of the last play, but the
predicate returns true: the parse failure is only logged and control falls
through to the game-end rule. -/
theorem c2_unparseable_window_counterexample :
    ShouldReschedule 1704067200 c2Payload hitPlay = true := by decide

/-- C2 amended: when executionEnd is present but does not parse as RFC3339,
ShouldReschedule ignores the window entirely and decides by the game-end
rule alone: it returns false exactly when the last play is game-end. -/
theorem c2_unparseable_window_amended (now : Instant) (p : Payload) (l : Play)
    (s : String) (he : p.executionEnd = some s) (hp : parseRFC3339 s = none) :
    ShouldReschedule now p l = !(l.typeDescKey == "game-end") := by
  unfold ShouldReschedule
  rw [he]
  simp only [hp]
  by_cases h : l.typeDescKey = "game-end" <;> simp [h]

/-- C2 amended, witness: the amended statement applied to the concrete
unparseable payload and a hit play. -/
theorem c2_unparseable_window_amended_witness :
    ShouldReschedule 0 c2Payload hitPlay = !(hitPlay.typeDescKey == "game-end") :=
  c2_unparseable_window_amended 0 c2Payload hitPlay "not-a-date" rfl (by decide)

/-- C3: the claim says FetchPlayByPlay never aborts and returns the
no-signal play on every upstream failure.  That holds for HTTP errors,
non-200 statuses, unreadable bodies and empty play lists, and the last play
is returned on success — but a 200 response whose body fails JSON
unmarshalling hits a panic in the source, aborting the iteration instead of
returning the no-signal play. -/
theorem c3_fetch_play_malformed_json_code_bug :
    FetchPlayByPlay (.response 200 .malformed) = .panicked ∧
    FetchPlayByPlay .httpError = .ok zeroPlay ∧
    FetchPlayByPlay (.response 404 (.parsed [⟨"goal"⟩])) = .ok zeroPlay ∧
    FetchPlayByPlay (.response 200 .readError) = .ok zeroPlay ∧
    FetchPlayByPlay (.response 200 (.parsed [])) = .ok zeroPlay ∧
    FetchPlayByPlay (.response 200 (.parsed [⟨"hit"⟩, ⟨"goal"⟩])) = .ok ⟨"goal"⟩ := by
  refine ⟨rfl, rfl, by decide, rfl, rfl, by decide⟩

/-- C5: on a data map whose four goal and shootout-goal values parse as
integers, the shootout adjustment succeeds; the side with the greater
shootout total has its goal count incremented by exactly 1 and the other is
unchanged, equal shootout totals change neither, and the total change in
home plus away goals is 0 (equal totals) or 1 (different totals). -/
theorem c5_shootout_adjustment (m : GameData) (hg ag hs a2 : Int)
    (hhg : atoi (mapGet m "homeTeamGoals") = some hg)
    (hag : atoi (mapGet m "awayTeamGoals") = some ag)
    (hhs : atoi (mapGet m "homeTeamShootOutGoals") = some hs)
    (ha2 : atoi (mapGet m "awayTeamShootOutGoals") = some a2) :
    (AdjustScoreForShootout m).2 = none ∧
    mapGet (AdjustScoreForShootout m).1 "homeTeamGoals"
      = itoa (if hs > a2 then hg + 1 else hg) ∧
    mapGet (AdjustScoreForShootout m).1 "awayTeamGoals"
      = itoa (if a2 > hs then ag + 1 else ag) ∧
    ((if hs > a2 then hg + 1 else hg) + (if a2 > hs then ag + 1 else ag) - (hg + ag)
      = if hs = a2 then 0 else 1) := by
  have hne : ("homeTeamGoals" : String) ≠ "awayTeamGoals" := by decide
  unfold AdjustScoreForShootout
  simp only [hhg, hag, hhs, ha2]
  refine ⟨trivial, ?_, ?_, ?_⟩ <;> split_ifs <;>
    simp_all [mapGet, mapSet, hne] <;> omega

/-- C5 witness: the adjustment applied to the concrete 3-3 map with a 2-1
home shootout. -/
theorem c5_shootout_adjustment_witness :
    (AdjustScoreForShootout c5Data).2 = none ∧
    mapGet (AdjustScoreForShootout c5Data).1 "homeTeamGoals"
      = itoa (if (2 : Int) > 1 then 3 + 1 else 3) ∧
    mapGet (AdjustScoreForShootout c5Data).1 "awayTeamGoals"
      = itoa (if (1 : Int) > 2 then 3 + 1 else 3) ∧
    ((if (2 : Int) > 1 then (3 : Int) + 1 else 3)
        + (if (1 : Int) > 2 then (3 : Int) + 1 else 3) - (3 + 3)
      = if (2 : Int) = 1 then 0 else 1) :=
  c5_shootout_adjustment c5Data 3 3 2 1 (by decide) (by decide) (by decide) (by decide)

/-- C10: the adjustment touches at most the two goal keys — when it fails
(exactly when any of the four values fails integer parsing) the map is
unchanged at every key, and on success every key other than homeTeamGoals
and awayTeamGoals is unchanged. -/
theorem c10_adjust_frame (m : GameData) (k : String)
    (hk1 : k ≠ "homeTeamGoals") (hk2 : k ≠ "awayTeamGoals") :
    ((atoi (mapGet m "homeTeamGoals") = none ∨ atoi (mapGet m "awayTeamGoals") = none ∨
      atoi (mapGet m "homeTeamShootOutGoals") = none ∨
      atoi (mapGet m "awayTeamShootOutGoals") = none) ↔
        (AdjustScoreForShootout m).2.isSome = true) ∧
    ((AdjustScoreForShootout m).2.isSome = true → (AdjustScoreForShootout m).1 = m) ∧
    (AdjustScoreForShootout m).1 k = m k := by
  unfold AdjustScoreForShootout
  rcases hA : atoi (mapGet m "homeTeamGoals") with _ | hg
  · simp [hA]
  rcases hB : atoi (mapGet m "awayTeamGoals") with _ | ag
  · simp [hA, hB]
  rcases hC : atoi (mapGet m "homeTeamShootOutGoals") with _ | hs
  · simp [hA, hB, hC]
  rcases hD : atoi (mapGet m "awayTeamShootOutGoals") with _ | a2
  · simp [hA, hB, hC, hD]
  simp only [hA, hB, hC, hD]
  refine ⟨by simp, by simp, ?_⟩
  simp [mapSet, hk1, hk2]

/-- C10 witness: the frame property applied to the concrete map whose away
shootout value does not parse, at a key outside the two goal keys. -/
theorem c10_adjust_frame_witness :
    ((atoi (mapGet c10BadData "homeTeamGoals") = none ∨
      atoi (mapGet c10BadData "awayTeamGoals") = none ∨
      atoi (mapGet c10BadData "homeTeamShootOutGoals") = none ∨
      atoi (mapGet c10BadData "awayTeamShootOutGoals") = none) ↔
        (AdjustScoreForShootout c10BadData).2.isSome = true) ∧
    ((AdjustScoreForShootout c10BadData).2.isSome = true →
      (AdjustScoreForShootout c10BadData).1 = c10BadData) ∧
    (AdjustScoreForShootout c10BadData).1 "other" = c10BadData "other" :=
  c10_adjust_frame c10BadData "other" (by decide) (by decide)

/-- C4 amended: for the shared game processor, a last play outside the
five-element recompute set triggers no stats fetch and no notifier call —
the iteration only decides rescheduling.  (The push-HTTP handler variant
uses a six-element set that also contains period-end; see the
counterexample.) -/
theorem c4_recompute_gate (now : Instant) (nowStr : String) (sn : Bool)
    (ns : List NotifierModel) (pbp : PlayByPlayUpstream) (st : StatsOutcome)
    (p : Payload) (lastPlay : Play)
    (hf : FetchPlayByPlay pbp = .ok lastPlay)
    (hni : lastPlay.typeDescKey ∉ recomputeTypes) :
    ProcessGameUpdate now nowStr sn ns pbp st p =
      .done ⟨ShouldReschedule now p lastPlay, lastPlay.typeDescKey⟩ false [] := by
  unfold ProcessGameUpdate
  simp only [hf]
  simp [hni]

/-- C4 amended, witness: a hit play on an open-window payload produces the
no-fetch, no-send outcome. -/
theorem c4_recompute_gate_witness :
    ProcessGameUpdate 0 "t" true [discordNotifier]
        (.response 200 (.parsed [hitPlay])) ⟨none, true⟩ c1Payload =
      .done ⟨ShouldReschedule 0 c1Payload hitPlay, hitPlay.typeDescKey⟩ false [] :=
  c4_recompute_gate 0 "t" true [discordNotifier] (.response 200 (.parsed [hitPlay]))
    ⟨none, true⟩ c1Payload hitPlay (by decide) (by decide)

/-- C4 counterexample: in the push-HTTP handler variant (one of the two
cited processor code paths), a run whose last play is period-end — a type
outside the claim's five-element set — both fetches stats and dispatches a
notification, because that handler's recompute set also contains
period-end. -/
theorem c4_period_end_counterexample :
    "period-end" ∉ recomputeTypes ∧
    HandlerWatchGameUpdates 1704067200 "t" true [discordNotifier]
        (.response 200 (.parsed [⟨"period-end"⟩])) ⟨none, true⟩ c1Payload =
      .done true ["\n*Notification sent at t*"] true := by
  constructor <;> decide

/-- C9 counterexample: an iteration reaching the notify step with an empty
data map still dispatches a notification whose body is just the timestamp
footer — the empty map suppresses the score and expected-goals blocks, not
the message. -/
theorem c9_empty_data_counterexample :
    SendGameEventNotifications true [discordNotifier] "12:00:00 UTC" g0 emptyData =
      ["\n*Notification sent at 12:00:00 UTC*"] ∧
    "\n*Notification sent at 12:00:00 UTC*" ≠ "" := by
  constructor <;> decide

/-- Restricting the empty data map to any key set yields the empty map. -/
theorem buildNotifierData_empty (ks : List String) :
    buildNotifierData ks emptyData = emptyData := by
  funext k
  simp [buildNotifierData, emptyData]

/-- Formatting against the empty data map yields only the timestamp
footer. -/
theorem formatMessage_empty (nowStr t1 t2 : String) :
    FormatMessage nowStr ⟨t1, t2, emptyData⟩
      = "\n*Notification sent at " ++ nowStr ++ "*" := rfl

/-- C9 amended: with an empty data map, the service still sends one message
per configured notifier, each consisting of the timestamp footer alone; no
notification goes out only when the notify flag is off (or no notifier is
configured, the map over an empty notifier list). -/
theorem c9_empty_data_amended (nowStr : String) (g : Game) (ns : List NotifierModel) :
    SendGameEventNotifications true ns nowStr g emptyData =
      ns.map (fun _ => "\n*Notification sent at " ++ nowStr ++ "*") ∧
    SendGameEventNotifications false ns nowStr g emptyData = [] := by
  refine ⟨?_, rfl⟩
  show ns.map _ = ns.map _
  simp only [buildNotifierData_empty, formatMessage_empty]

/-- C7 counterexample: a delivery whose payload fails to decode makes
ProcessTask return a plain error with no successor enqueued; the error is
not marked with asynq.SkipRetry, so under the broker contract the invalid
task IS retried, contradicting the claim's terminal surfacing. -/
theorem c7_decode_failure_counterexample :
    ProcessTask 0 "t" [] none .httpError ⟨none, false⟩ true =
      ⟨.fail c7DecodeError, false⟩ ∧
    brokerRetries c7DecodeError = true := by
  constructor <;> rfl

/-- C7 amended: on decode failure the worker returns an error before any
processing and enqueues no successor, but the error is a plain one, so the
broker's retry policy applies to it rather than a terminal nack. -/
theorem c7_decode_failure_amended (now : Instant) (nowStr : String)
    (ns : List NotifierModel) (pbp : PlayByPlayUpstream) (st : StatsOutcome)
    (enqueueOk : Bool) :
    ProcessTask now nowStr ns none pbp st enqueueOk = ⟨.fail c7DecodeError, false⟩ ∧
    brokerRetries c7DecodeError = true := ⟨rfl, rfl⟩

/-- C6: the daily scheduler enqueues per game exactly as the claim's
per-game specification says — a task if and only if the game state is FUT
and the start time parses as RFC3339, delivered at the start time, with
execution_end at start plus the configured maximum duration and the
configured notify flag. -/
theorem c6_scheduler_enqueues_future_games (h : Int) (sn : Bool)
    (games : List ScheduleGame) :
    schedulerRun h sn games = games.filterMap (scheduledTaskSpec h sn) := by
  induction games with
  | nil => rfl
  | cons g rest ih =>
    rw [List.filterMap_cons]
    unfold schedulerRun
    by_cases hst : g.gameState = "FUT"
    · cases hp : parseRFC3339 g.startTimeUTC with
      | none => simp [scheduledTaskSpec, hst, hp, ih]
      | some startTime => simp [scheduledTaskSpec, hst, hp, ih]
    · simp [scheduledTaskSpec, hst, ih]

/-- Decoding the entries of an encoded string map recovers the entries. -/
theorem decodeStrEntries_encode (l : List (String × String)) :
    decodeStrEntries (l.map (fun kv => (kv.1, Json.str kv.2))) = some l := by
  induction l with
  | nil => rfl
  | cons kv rest ih => simp [decodeStrEntries, decodeStrEntry, ih]

/-- Unmarshalling an encoded string map recovers the map, nil or not. -/
theorem decodeStrMapField_encode (m : Option (List (String × String))) :
    decodeStrMapField (some (encodeStrMap m)) = some m := by
  cases m with
  | none => rfl
  | some l => simp [encodeStrMap, decodeStrMapField, decodeStrEntries_encode]

/-- Unmarshalling an encoded team recovers the team. -/
theorem decodeTeam_encode (t : Team) : decodeTeam (encodeTeam t) = some t := by
  simp [encodeTeam, decodeTeam, lookupJson, List.find?, decodeNumField,
    decodeStrField, decodeStrMapField_encode]

/-- Unmarshalling an encoded game recovers the game. -/
theorem decodeGame_encode (g : Game) : decodeGame (encodeGame g) = some g := by
  simp [encodeGame, decodeGame, lookupJson, List.find?, decodeStrField,
    decodeTeamField, decodeTeam_encode]

/-- C8: the task payload codec is lossless — decoding the task produced by
encoding any payload yields that payload, for every combination of the
optional execution_end and should_notify fields, including the embedded
game and its team name maps. -/
theorem c8_payload_roundtrip (p : Payload) :
    ParseWatchGameUpdatesPayload (NewWatchGameUpdatesTask p) = some p := by
  obtain ⟨g, ee, sn⟩ := p
  unfold ParseWatchGameUpdatesPayload NewWatchGameUpdatesTask
  cases ee <;> cases sn <;>
    simp [encodePayload, decodePayload, lookupJson, List.find?,
      decodeGameField, decodeGame_encode, decodeOptStrField, decodeOptBoolField]

end Backend
